import Mathlib

/-!
# Arkanoid game core: shallow embedding and verification

This file embeds the simulation core of `src/components/ArkanoidGame.tsx`
(the Arkanoid brick-breaker game) into Lean 4 and proves properties of it.

Modelling conventions:
* JavaScript numbers are modelled as rationals (`ℚ`); the code only uses
  `+`, `-`, `*`, `/`, comparisons and sign flips on them, except for the
  paddle-bounce angle remap which calls `Math.sin`, `Math.cos`, `Math.sqrt`
  and `Math.PI`.  Those four are external to the repository and are passed
  in as an abstract parameter record `MathOps`, so every theorem below
  holds for an arbitrary interpretation of them.
* `Math.random() > 0.5` in `resetBall` is modelled by a boolean parameter
  `rnd` supplied to each transition.
* React's `useState`/`useRef` cells (`gameState`, `score`, `lives`,
  `ball`, `paddle`, `bricks`) are collected into a `SimState` record which
  each transition maps to a new record; the sequential mutations of one
  tick of `update()` become sequential function composition in the very
  order the code performs them.
* The `keysPressed` set is abstracted to the two held directions the code
  reads (`ArrowLeft`/`a` and `ArrowRight`/`d`), record `Inputs`.
* The two key commands of `handleKeyDown` (space and the R key) become the
  `Command` type; the frame tick is `update`.
-/

namespace Arkanoid

/-- Game constants, from the `// Game constants` block of the source. -/
def CANVAS_WIDTH : ℚ := 800

/-- Field height constant. -/
def CANVAS_HEIGHT : ℚ := 600

/-- Paddle width constant. -/
def PADDLE_WIDTH : ℚ := 120

/-- Paddle height constant. -/
def PADDLE_HEIGHT : ℚ := 15

/-- Ball radius constant. -/
def BALL_RADIUS : ℚ := 8

/-- Number of brick rows. -/
def BRICK_ROWS : ℕ := 6

/-- Number of brick columns. -/
def BRICK_COLS : ℕ := 10

/-- Brick width constant. -/
def BRICK_WIDTH : ℚ := 70

/-- Brick height constant. -/
def BRICK_HEIGHT : ℚ := 25

/-- Padding between bricks. -/
def BRICK_PADDING : ℚ := 10

/-- Vertical offset of the brick grid. -/
def BRICK_OFFSET_TOP : ℚ := 60

/-- Horizontal offset of the brick grid. -/
def BRICK_OFFSET_LEFT : ℚ := 35

/-- The `Brick` interface of the source. -/
structure Brick where
  x : ℚ
  y : ℚ
  width : ℚ
  height : ℚ
  color : String
  active : Bool
  points : ℤ
  deriving DecidableEq, Repr

/-- The `Ball` interface of the source. -/
structure Ball where
  x : ℚ
  y : ℚ
  dx : ℚ
  dy : ℚ
  radius : ℚ
  deriving DecidableEq, Repr

/-- The `Paddle` interface of the source. -/
structure Paddle where
  x : ℚ
  y : ℚ
  width : ℚ
  height : ℚ
  speed : ℚ
  deriving DecidableEq, Repr

/-- The `GameState` union type of the source: the five game phases. -/
inductive GameState where
  | ready
  | playing
  | paused
  | gameOver
  | win
  deriving DecidableEq, Repr

/-- The full mutable simulation state: the React state cells `gameState`,
`score`, `lives` and the refs `ball`, `paddle`, `bricks`. -/
structure SimState where
  gameState : GameState
  score : ℤ
  lives : ℤ
  ball : Ball
  paddle : Paddle
  bricks : List Brick
  deriving DecidableEq, Repr

/-- The held directional inputs the tick reads from `keysPressed`:
`left` is `ArrowLeft || a`, `right` is `ArrowRight || d`. -/
structure Inputs where
  left : Bool
  right : Bool
  deriving DecidableEq, Repr

/-- Abstract interpretation of the JavaScript `Math` functions the paddle
bounce uses; theorems quantify over an arbitrary such record. -/
structure MathOps where
  sin : ℚ → ℚ
  cos : ℚ → ℚ
  sqrt : ℚ → ℚ
  pi : ℚ

/-- The color palette used by `initBricks`. -/
def colors : List String :=
  ["#FF6B6B", "#4ECDC4", "#45B7D1", "#FFA07A", "#98D8C8", "#F7DC6F"]

/-- `initBricks`: builds the rows × columns brick grid, row-major, all
bricks active, `points = (BRICK_ROWS - row) * 10`. -/
def initBricks : List Brick :=
  (List.range BRICK_ROWS).flatMap (fun row =>
    (List.range BRICK_COLS).map (fun col =>
      { x := (col : ℚ) * (BRICK_WIDTH + BRICK_PADDING) + BRICK_OFFSET_LEFT
        y := (row : ℚ) * (BRICK_HEIGHT + BRICK_PADDING) + BRICK_OFFSET_TOP
        width := BRICK_WIDTH
        height := BRICK_HEIGHT
        color := colors.getD (row % colors.length) ""
        active := true
        points := ((BRICK_ROWS : ℤ) - (row : ℤ)) * 10 }))

/-- `resetBall`: recreate the ball at the field center, horizontal
direction decided by `Math.random() > 0.5` (parameter `rnd`), vertical
velocity the constant `-4`. -/
def resetBall (rnd : Bool) : Ball :=
  { x := CANVAS_WIDTH / 2
    y := CANVAS_HEIGHT / 2
    dx := 4 * (if rnd then 1 else -1)
    dy := -4
    radius := BALL_RADIUS }

/-- The initial paddle, from the `paddle` ref initializer. -/
def initPaddle : Paddle :=
  { x := CANVAS_WIDTH / 2 - PADDLE_WIDTH / 2
    y := CANVAS_HEIGHT - 40
    width := PADDLE_WIDTH
    height := PADDLE_HEIGHT
    speed := 8 }

/-- The initial ball, from the `ball` ref initializer. -/
def initBall : Ball :=
  { x := CANVAS_WIDTH / 2
    y := CANVAS_HEIGHT / 2
    dx := 4
    dy := -4
    radius := BALL_RADIUS }

/-- The state after mount: phase `ready`, score 0, lives 3, initial
entities, and the brick grid built by the mount effect. -/
def initState : SimState :=
  { gameState := .ready
    score := 0
    lives := 3
    ball := initBall
    paddle := initPaddle
    bricks := initBricks }

/-- `resetGame`: score 0, lives 3, rebuild bricks, reset ball, recenter
the paddle (only its `x` is assigned), phase `ready`. -/
def resetGame (rnd : Bool) (s : SimState) : SimState :=
  { s with
    score := 0
    lives := 3
    bricks := initBricks
    ball := resetBall rnd
    paddle := { s.paddle with x := CANVAS_WIDTH / 2 - PADDLE_WIDTH / 2 }
    gameState := .ready }

/-- The AABB overlap test between the ball and a brick combined with the
brick's `active` guard, exactly the two nested `if`s of
`checkBallBrickCollision`. -/
def brickHit (b : Ball) (br : Brick) : Bool :=
  br.active &&
    decide (b.x + b.radius > br.x) &&
    decide (b.x - b.radius < br.x + br.width) &&
    decide (b.y + b.radius > br.y) &&
    decide (b.y - b.radius < br.y + br.height)

/-- The side-determination reflection of `checkBallBrickCollision`:
cross-terms of the center offset against the radius-inflated half extents
pick which velocity component flips (`>`: ties flip `dx`). -/
def brickBounce (b : Ball) (br : Brick) : Ball :=
  let dx := b.x - (br.x + br.width / 2)
  let dy := b.y - (br.y + br.height / 2)
  let width := (br.width + b.radius * 2) / 2
  let height := (br.height + b.radius * 2) / 2
  let crossWidth := width * dy
  let crossHeight := height * dx
  if |crossWidth| > |crossHeight| then
    { b with dy := -b.dy }
  else
    { b with dx := -b.dx }

/-- `checkBallBrickCollision`: scan the bricks in creation order; on the
first active overlapping brick, reflect the ball, deactivate the brick,
add its points to the score, and `break`.  Returns the new ball, brick
list and score. -/
def checkBallBrickCollision (b : Ball) : List Brick → ℤ → Ball × List Brick × ℤ
  | [], score => (b, [], score)
  | br :: rest, score =>
    if brickHit b br then
      (brickBounce b br, { br with active := false } :: rest, score + br.points)
    else
      let r := checkBallBrickCollision b rest score
      (r.1, br :: r.2.1, r.2.2)

/-- `hitPosition` of `checkBallPaddleCollision`: where along the paddle
the ball center lies (0 = left edge, 1 = right edge). -/
def hitPosition (b : Ball) (p : Paddle) : ℚ :=
  (b.x - p.x) / p.width

/-- `checkBallPaddleCollision`: on AABB overlap with the paddle, remap the
velocity by the hit angle (max 54° from vertical), keep the magnitude
`sqrt (dx² + dy²)`, force the vertical component upward, and snap the
ball to rest on top of the paddle. -/
def checkBallPaddleCollision (m : MathOps) (b : Ball) (p : Paddle) : Ball :=
  if b.x + b.radius > p.x ∧ b.x - b.radius < p.x + p.width ∧
     b.y + b.radius > p.y ∧ b.y - b.radius < p.y + p.height then
    let hit := hitPosition b p
    let angle := (hit - 1/2) * m.pi * (3/5)
    let speed := m.sqrt (b.dx * b.dx + b.dy * b.dy)
    { b with
      dx := m.sin angle * speed
      dy := -|m.cos angle * speed|
      y := p.y - b.radius }
  else b

/-- The `// Move ball` step of `update`: integrate the position. -/
def moveBall (s : SimState) : SimState :=
  { s with ball := { s.ball with x := s.ball.x + s.ball.dx, y := s.ball.y + s.ball.dy } }

/-- The `// Ball collision with walls` step of `update`: flip `dx` when
the horizontal extent leaves `[0, CANVAS_WIDTH]`, then flip `dy` when the
top extent is above 0 (the bottom is not reflected). -/
def wallReflect (b : Ball) : Ball :=
  let b1 := if b.x + b.radius > CANVAS_WIDTH ∨ b.x - b.radius < 0 then
    { b with dx := -b.dx } else b
  if b1.y - b1.radius < 0 then { b1 with dy := -b1.dy } else b1

/-- Wall reflection lifted to the simulation state. -/
def wallStep (s : SimState) : SimState :=
  { s with ball := wallReflect s.ball }

/-- The `// Ball falls below paddle` step of `update`: when the ball's
top extent has passed `CANVAS_HEIGHT`, decrement lives; at zero go to
`gameOver`, otherwise reset the ball and go to `ready`. -/
def applyBottomFall (rnd : Bool) (s : SimState) : SimState :=
  if s.ball.y - s.ball.radius > CANVAS_HEIGHT then
    let newLives := s.lives - 1
    if newLives ≤ 0 then
      { s with lives := newLives, gameState := .gameOver }
    else
      { s with lives := newLives, gameState := .ready, ball := resetBall rnd }
  else s

/-- The `// Move paddle` and `// Keep paddle in bounds` steps of
`update`: move by `speed` per held direction, then clamp left, then clamp
right. -/
def movePaddle (inp : Inputs) (s : SimState) : SimState :=
  let px0 := if inp.left then s.paddle.x - s.paddle.speed else s.paddle.x
  let px1 := if inp.right then px0 + s.paddle.speed else px0
  let px2 := if px1 < 0 then 0 else px1
  let px3 := if px2 + s.paddle.width > CANVAS_WIDTH then CANVAS_WIDTH - s.paddle.width
    else px2
  { s with paddle := { s.paddle with x := px3 } }

/-- Paddle collision lifted to the simulation state. -/
def paddleStep (m : MathOps) (s : SimState) : SimState :=
  { s with ball := checkBallPaddleCollision m s.ball s.paddle }

/-- Brick collision lifted to the simulation state. -/
def brickStep (s : SimState) : SimState :=
  let r := checkBallBrickCollision s.ball s.bricks s.score
  { s with ball := r.1, bricks := r.2.1, score := r.2.2 }

/-- The `// Check win condition` step of `update`: if no brick is active,
the phase becomes `win`. -/
def checkWin (s : SimState) : SimState :=
  if (s.bricks.filter (fun br => br.active)).length = 0 then
    { s with gameState := .win }
  else s

/-- One tick of `update()`: a no-op unless the phase is `playing`, else
the seven steps in the exact order of the source. -/
def update (m : MathOps) (inp : Inputs) (rnd : Bool) (s : SimState) : SimState :=
  if s.gameState ≠ GameState.playing then s
  else
    checkWin (brickStep (paddleStep m (movePaddle inp
      (applyBottomFall rnd (wallStep (moveBall s))))))

/-- The discrete commands of `handleKeyDown`: the space key (start /
pause / resume) and the R key (restart). -/
inductive Command where
  | space
  | restart
  deriving DecidableEq, Repr

/-- `handleKeyDown` phase logic: space cycles ready → playing → paused →
playing and is ignored in `gameOver`/`win`; R runs `resetGame` only in
`gameOver`/`win`. -/
def handleCommand (rnd : Bool) (c : Command) (s : SimState) : SimState :=
  match c with
  | .space =>
    match s.gameState with
    | .ready => { s with gameState := .playing }
    | .playing => { s with gameState := .paused }
    | .paused => { s with gameState := .playing }
    | .gameOver => s
    | .win => s
  | .restart =>
    if s.gameState = GameState.gameOver ∨ s.gameState = GameState.win then
      resetGame rnd s
    else s

/-- The squared speed `dx² + dy²` of the ball, as the source computes it
in `checkBallPaddleCollision`. -/
def speedSq (b : Ball) : ℚ :=
  b.dx * b.dx + b.dy * b.dy

/-- States reachable from the mounted initial state by any interleaving
of frame ticks (each with arbitrary held inputs, random draw and `Math`
interpretation) and key commands. -/
inductive Reachable : SimState → Prop where
  | init : Reachable initState
  | tick (m : MathOps) (inp : Inputs) (rnd : Bool) (s : SimState) :
      Reachable s → Reachable (update m inp rnd s)
  | cmd (c : Command) (rnd : Bool) (s : SimState) :
      Reachable s → Reachable (handleCommand rnd c s)

/-- A concrete interpretation of the `Math` functions, used to
instantiate theorems at concrete inputs. -/
def mathsZero : MathOps :=
  { sin := fun _ => 0, cos := fun _ => 0, sqrt := fun _ => 0, pi := 0 }

/-- No held directional keys. -/
def noInput : Inputs := { left := false, right := false }

/-! ## Projection lemmas for the tick steps -/

@[simp] lemma moveBall_gameState (s : SimState) : (moveBall s).gameState = s.gameState := rfl

@[simp] lemma moveBall_lives (s : SimState) : (moveBall s).lives = s.lives := rfl

@[simp] lemma moveBall_score (s : SimState) : (moveBall s).score = s.score := rfl

@[simp] lemma moveBall_paddle (s : SimState) : (moveBall s).paddle = s.paddle := rfl

@[simp] lemma moveBall_bricks (s : SimState) : (moveBall s).bricks = s.bricks := rfl

@[simp] lemma moveBall_ball_x (s : SimState) : (moveBall s).ball.x = s.ball.x + s.ball.dx := rfl

@[simp] lemma moveBall_ball_y (s : SimState) : (moveBall s).ball.y = s.ball.y + s.ball.dy := rfl

@[simp] lemma moveBall_ball_radius (s : SimState) : (moveBall s).ball.radius = s.ball.radius := rfl

@[simp] lemma wallReflect_x (b : Ball) : (wallReflect b).x = b.x := by
  simp only [wallReflect]
  split <;> split <;> rfl

@[simp] lemma wallReflect_y (b : Ball) : (wallReflect b).y = b.y := by
  simp only [wallReflect]
  split <;> split <;> rfl

@[simp] lemma wallReflect_radius (b : Ball) : (wallReflect b).radius = b.radius := by
  simp only [wallReflect]
  split <;> split <;> rfl

@[simp] lemma wallStep_ball (s : SimState) : (wallStep s).ball = wallReflect s.ball := rfl

@[simp] lemma wallStep_gameState (s : SimState) : (wallStep s).gameState = s.gameState := rfl

@[simp] lemma wallStep_lives (s : SimState) : (wallStep s).lives = s.lives := rfl

@[simp] lemma wallStep_score (s : SimState) : (wallStep s).score = s.score := rfl

@[simp] lemma wallStep_paddle (s : SimState) : (wallStep s).paddle = s.paddle := rfl

@[simp] lemma wallStep_bricks (s : SimState) : (wallStep s).bricks = s.bricks := rfl

@[simp] lemma applyBottomFall_paddle (rnd : Bool) (s : SimState) :
    (applyBottomFall rnd s).paddle = s.paddle := by
  simp only [applyBottomFall]
  split <;> (try split) <;> rfl

@[simp] lemma applyBottomFall_score (rnd : Bool) (s : SimState) :
    (applyBottomFall rnd s).score = s.score := by
  simp only [applyBottomFall]
  split <;> (try split) <;> rfl

@[simp] lemma applyBottomFall_bricks (rnd : Bool) (s : SimState) :
    (applyBottomFall rnd s).bricks = s.bricks := by
  simp only [applyBottomFall]
  split <;> (try split) <;> rfl

lemma applyBottomFall_lives (rnd : Bool) (s : SimState) :
    (applyBottomFall rnd s).lives =
      if s.ball.y - s.ball.radius > CANVAS_HEIGHT then s.lives - 1 else s.lives := by
  simp only [applyBottomFall]
  split <;> (try split) <;> rfl

lemma applyBottomFall_of_no_fall (rnd : Bool) (s : SimState)
    (h : ¬ s.ball.y - s.ball.radius > CANVAS_HEIGHT) :
    applyBottomFall rnd s = s := by
  simp only [applyBottomFall]
  rw [if_neg h]

lemma applyBottomFall_of_fall_alive (rnd : Bool) (s : SimState)
    (hf : s.ball.y - s.ball.radius > CANVAS_HEIGHT) (hl : ¬ s.lives - 1 ≤ 0) :
    applyBottomFall rnd s =
      { s with lives := s.lives - 1, gameState := .ready, ball := resetBall rnd } := by
  simp only [applyBottomFall]
  rw [if_pos hf, if_neg hl]

lemma applyBottomFall_of_fall_dead (rnd : Bool) (s : SimState)
    (hf : s.ball.y - s.ball.radius > CANVAS_HEIGHT) (hl : s.lives - 1 ≤ 0) :
    applyBottomFall rnd s = { s with lives := s.lives - 1, gameState := .gameOver } := by
  simp only [applyBottomFall]
  rw [if_pos hf, if_pos hl]

@[simp] lemma movePaddle_gameState (inp : Inputs) (s : SimState) :
    (movePaddle inp s).gameState = s.gameState := rfl

@[simp] lemma movePaddle_lives (inp : Inputs) (s : SimState) :
    (movePaddle inp s).lives = s.lives := rfl

@[simp] lemma movePaddle_score (inp : Inputs) (s : SimState) :
    (movePaddle inp s).score = s.score := rfl

@[simp] lemma movePaddle_ball (inp : Inputs) (s : SimState) :
    (movePaddle inp s).ball = s.ball := rfl

@[simp] lemma movePaddle_bricks (inp : Inputs) (s : SimState) :
    (movePaddle inp s).bricks = s.bricks := rfl

@[simp] lemma movePaddle_paddle_y (inp : Inputs) (s : SimState) :
    (movePaddle inp s).paddle.y = s.paddle.y := rfl

@[simp] lemma movePaddle_paddle_width (inp : Inputs) (s : SimState) :
    (movePaddle inp s).paddle.width = s.paddle.width := rfl

@[simp] lemma movePaddle_paddle_height (inp : Inputs) (s : SimState) :
    (movePaddle inp s).paddle.height = s.paddle.height := rfl

@[simp] lemma movePaddle_paddle_speed (inp : Inputs) (s : SimState) :
    (movePaddle inp s).paddle.speed = s.paddle.speed := rfl

@[simp] lemma paddleStep_gameState (m : MathOps) (s : SimState) :
    (paddleStep m s).gameState = s.gameState := rfl

@[simp] lemma paddleStep_lives (m : MathOps) (s : SimState) :
    (paddleStep m s).lives = s.lives := rfl

@[simp] lemma paddleStep_score (m : MathOps) (s : SimState) :
    (paddleStep m s).score = s.score := rfl

@[simp] lemma paddleStep_paddle (m : MathOps) (s : SimState) :
    (paddleStep m s).paddle = s.paddle := rfl

@[simp] lemma paddleStep_bricks (m : MathOps) (s : SimState) :
    (paddleStep m s).bricks = s.bricks := rfl

@[simp] lemma paddleStep_ball (m : MathOps) (s : SimState) :
    (paddleStep m s).ball = checkBallPaddleCollision m s.ball s.paddle := rfl

@[simp] lemma brickStep_gameState (s : SimState) : (brickStep s).gameState = s.gameState := rfl

@[simp] lemma brickStep_lives (s : SimState) : (brickStep s).lives = s.lives := rfl

@[simp] lemma brickStep_paddle (s : SimState) : (brickStep s).paddle = s.paddle := rfl

@[simp] lemma brickStep_ball (s : SimState) :
    (brickStep s).ball = (checkBallBrickCollision s.ball s.bricks s.score).1 := rfl

@[simp] lemma brickStep_bricks (s : SimState) :
    (brickStep s).bricks = (checkBallBrickCollision s.ball s.bricks s.score).2.1 := rfl

@[simp] lemma brickStep_score (s : SimState) :
    (brickStep s).score = (checkBallBrickCollision s.ball s.bricks s.score).2.2 := rfl

@[simp] lemma checkWin_lives (s : SimState) : (checkWin s).lives = s.lives := by
  simp only [checkWin]
  split <;> rfl

@[simp] lemma checkWin_score (s : SimState) : (checkWin s).score = s.score := by
  simp only [checkWin]
  split <;> rfl

@[simp] lemma checkWin_ball (s : SimState) : (checkWin s).ball = s.ball := by
  simp only [checkWin]
  split <;> rfl

@[simp] lemma checkWin_paddle (s : SimState) : (checkWin s).paddle = s.paddle := by
  simp only [checkWin]
  split <;> rfl

@[simp] lemma checkWin_bricks (s : SimState) : (checkWin s).bricks = s.bricks := by
  simp only [checkWin]
  split <;> rfl

lemma checkWin_gameState_of_active (s : SimState)
    (h : (s.bricks.filter (fun br => br.active)).length ≠ 0) :
    (checkWin s).gameState = s.gameState := by
  simp only [checkWin]
  rw [if_neg h]

lemma update_playing (m : MathOps) (inp : Inputs) (rnd : Bool) (s : SimState)
    (hp : s.gameState = GameState.playing) :
    update m inp rnd s =
      checkWin (brickStep (paddleStep m (movePaddle inp
        (applyBottomFall rnd (wallStep (moveBall s)))))) := by
  unfold update
  rw [if_neg (by simp [hp])]

lemma checkBallPaddleCollision_of_no_overlap (m : MathOps) (b : Ball) (p : Paddle)
    (h : ¬ (b.x + b.radius > p.x ∧ b.x - b.radius < p.x + p.width ∧
            b.y + b.radius > p.y ∧ b.y - b.radius < p.y + p.height)) :
    checkBallPaddleCollision m b p = b := by
  simp only [checkBallPaddleCollision]
  rw [if_neg h]

lemma brickHit_eq_false_of_above (b : Ball) (br : Brick)
    (h : ¬ b.y - b.radius < br.y + br.height) :
    brickHit b br = false := by
  simp only [brickHit, decide_eq_false h, Bool.and_false]

lemma checkBallBrickCollision_of_no_hit (b : Ball) (bricks : List Brick) (score : ℤ)
    (h : ∀ br ∈ bricks, brickHit b br = false) :
    checkBallBrickCollision b bricks score = (b, bricks, score) := by
  induction bricks with
  | nil => rfl
  | cons br rest ih =>
    have h1 : brickHit b br = false := h br (List.mem_cons_self br rest)
    have h2 : ∀ x ∈ rest, brickHit b x = false := fun x hx => h x (List.mem_cons_of_mem br hx)
    simp only [checkBallBrickCollision, h1, Bool.false_eq_true, if_false, ih h2]

lemma filter_active_length_ne_zero (l : List Brick) (h : ∃ br ∈ l, br.active = true) :
    (l.filter (fun br => br.active)).length ≠ 0 := by
  obtain ⟨br, hmem, hac⟩ := h
  have hm : br ∈ l.filter (fun br => br.active) := List.mem_filter.mpr ⟨hmem, by simp [hac]⟩
  intro hlen
  rw [List.length_eq_zero] at hlen
  rw [hlen] at hm
  exact (List.not_mem_nil br) hm

lemma update_frozen (m : MathOps) (inp : Inputs) (rnd : Bool) (s : SimState)
    (h : s.gameState ≠ GameState.playing) :
    update m inp rnd s = s := by
  unfold update
  rw [if_pos h]

lemma paddleStep_of_no_overlap (m : MathOps) (u : SimState)
    (h : ¬ (u.ball.x + u.ball.radius > u.paddle.x ∧
            u.ball.x - u.ball.radius < u.paddle.x + u.paddle.width ∧
            u.ball.y + u.ball.radius > u.paddle.y ∧
            u.ball.y - u.ball.radius < u.paddle.y + u.paddle.height)) :
    paddleStep m u = u := by
  simp only [paddleStep, checkBallPaddleCollision_of_no_overlap m u.ball u.paddle h]

lemma brickStep_of_no_hit (u : SimState)
    (h : ∀ br ∈ u.bricks, brickHit u.ball br = false) :
    brickStep u = u := by
  simp only [brickStep, checkBallBrickCollision_of_no_hit u.ball u.bricks u.score h]

lemma checkWin_of_active (u : SimState) (h : ∃ br ∈ u.bricks, br.active = true) :
    checkWin u = u := by
  simp only [checkWin]
  rw [if_neg (filter_active_length_ne_zero u.bricks h)]

/-! ## Concrete probe states for counterexamples and witnesses

The rational arithmetic operations are sealed `irreducible` upstream;
they are made semireducible locally so that `decide` can evaluate the
embedding on concrete states. -/

attribute [local semireducible] Rat.add Rat.sub Rat.mul Rat.inv

/-- A playing state whose ball, after this tick's position integration,
has its bottom extent (`y + radius`) past the bottom boundary while its
top extent (`y - radius`) is not. -/
def grazeState : SimState :=
  { gameState := .playing
    score := 0
    lives := 3
    ball := { x := 400, y := 590, dx := 0, dy := 4, radius := 8 }
    paddle := initPaddle
    bricks := initBricks }

/-- A playing state with three lives whose ball falls fully below the
field on this tick. -/
def fallState : SimState :=
  { gameState := .playing
    score := 0
    lives := 3
    ball := { x := 400, y := 610, dx := 0, dy := 4, radius := 8 }
    paddle := initPaddle
    bricks := initBricks }

/-- A ball overlapping the first brick of the freshly built grid. -/
def probeBall : Ball := { x := 50, y := 70, dx := 4, dy := 4, radius := 8 }

/-- The first brick of the freshly built grid. -/
def probeBrick : Brick :=
  { x := 35, y := 60, width := 70, height := 25, color := "#FF6B6B", active := true, points := 60 }

/-- A ball overlapping the initial paddle while its center is left of
the paddle's left edge. -/
def grazePaddleBall : Ball := { x := 336, y := 560, dx := 4, dy := 4, radius := 8 }

/-! ## Claim theorems -/

/-- C1: when the phase is not `playing`, a tick of `update` is the
identity: every component of the state (ball position and velocity,
paddle, bricks, score, lives, phase) is unchanged. -/
theorem update_noop_of_not_playing (m : MathOps) (inp : Inputs) (rnd : Bool) (s : SimState)
    (h : s.gameState ≠ GameState.playing) :
    update m inp rnd s = s := by
  unfold update
  rw [if_pos h]

/-- Witness for C1: the initial state has phase `ready`, and a tick
leaves it unchanged. -/
theorem update_noop_of_not_playing_witness :
    update mathsZero noInput true initState = initState :=
  update_noop_of_not_playing mathsZero noInput true initState (by decide)

/-- C5: wall reflections and brick bounces only flip the sign of one
velocity component, so the squared speed `dx*dx + dy*dy` is exactly
preserved by both. -/
theorem bounce_preserves_speedSq :
    (∀ b : Ball, speedSq (wallReflect b) = speedSq b) ∧
    (∀ (b : Ball) (br : Brick), speedSq (brickBounce b br) = speedSq b) := by
  constructor
  · intro b
    simp only [wallReflect, speedSq]
    split <;> split <;> simp
  · intro b br
    simp only [brickBounce, speedSq]
    split <;> simp

/-- C2 (counterexample to the claim as stated): on the tick in which the
ball's bottom-most point `y + radius` first crosses `CANVAS_HEIGHT` the
code does not decrement lives, because the source tests
`b.y - b.radius > CANVAS_HEIGHT` (top-most point), not `y + radius`. -/
theorem lives_unchanged_when_bottom_extent_crosses :
    grazeState.gameState = GameState.playing ∧
    grazeState.ball.y + grazeState.ball.dy + grazeState.ball.radius > CANVAS_HEIGHT ∧
    ¬ grazeState.ball.y + grazeState.ball.dy - grazeState.ball.radius > CANVAS_HEIGHT ∧
    (update mathsZero noInput true grazeState).lives = grazeState.lives := by
  decide

/-- C2 (amended): on every tick, lives is decremented exactly when the
phase is `playing` and the ball's top-most point `y - radius` (after
this tick's position integration) exceeds `CANVAS_HEIGHT`, i.e. the ball
has fully left the field; on every other tick lives is unchanged. -/
theorem lives_decrement_iff_fully_below_bottom (m : MathOps) (inp : Inputs) (rnd : Bool)
    (s : SimState) :
    (update m inp rnd s).lives =
      if s.gameState = GameState.playing ∧
         s.ball.y + s.ball.dy - s.ball.radius > CANVAS_HEIGHT
      then s.lives - 1 else s.lives := by
  by_cases hp : s.gameState = GameState.playing
  · rw [update_playing m inp rnd s hp]
    simp only [checkWin_lives, brickStep_lives, paddleStep_lives, movePaddle_lives,
      applyBottomFall_lives, wallStep_ball, wallReflect_y, wallReflect_radius,
      moveBall_ball_y, moveBall_ball_radius, wallStep_lives, moveBall_lives]
    simp [hp]
  · rw [update_frozen m inp rnd s hp]
    simp [hp]

/-- C3 (counterexample to the claim as stated): on a bottom-fall tick
with lives remaining, the respawned ball's vertical velocity is the
constant `-4`, which is negative (upward in canvas coordinates), not
positive as the claim states. -/
theorem respawn_dy_is_negative :
    fallState.gameState = GameState.playing ∧
    2 ≤ fallState.lives ∧
    fallState.ball.y + fallState.ball.dy - fallState.ball.radius > CANVAS_HEIGHT ∧
    (update mathsZero noInput true fallState).gameState = GameState.ready ∧
    (update mathsZero noInput true fallState).ball.dy = -4 ∧
    ¬ (0 : ℚ) < (update mathsZero noInput true fallState).ball.dy := by
  decide

/-- C3 (amended): on a bottom-fall tick with at least two lives, the
ball is respawned at the field center with randomized horizontal
direction (`dx = ±4`) and the fixed *upward* vertical velocity
`dy = -4 < 0`, and the phase transitions to `ready`.  The geometric side
conditions (paddle top at or below `y = 308`, bricks ending above
`y = 292`, at least one active brick) hold in every real game layout and
keep the freshly respawned center ball clear of the paddle, the bricks
and the win check for the remainder of the tick. -/
theorem respawn_after_fall_with_lives_left (m : MathOps) (inp : Inputs) (rnd : Bool)
    (s : SimState)
    (hp : s.gameState = GameState.playing)
    (hf : s.ball.y + s.ball.dy - s.ball.radius > CANVAS_HEIGHT)
    (hl : 2 ≤ s.lives)
    (hpy : 308 ≤ s.paddle.y)
    (hbr : ∀ br ∈ s.bricks, br.y + br.height ≤ 292)
    (hact : ∃ br ∈ s.bricks, br.active = true) :
    (update m inp rnd s).ball = resetBall rnd ∧
    (update m inp rnd s).gameState = GameState.ready ∧
    (resetBall rnd).x = CANVAS_WIDTH / 2 ∧
    (resetBall rnd).y = CANVAS_HEIGHT / 2 ∧
    ((resetBall rnd).dx = 4 ∨ (resetBall rnd).dx = -4) ∧
    (resetBall rnd).dy = -4 ∧ (resetBall rnd).dy < 0 := by
  have hfall2 : (wallStep (moveBall s)).ball.y - (wallStep (moveBall s)).ball.radius >
      CANVAS_HEIGHT := by
    simpa using hf
  have hl2 : ¬ (wallStep (moveBall s)).lives - 1 ≤ 0 := by
    simp only [wallStep_lives, moveBall_lives]
    omega
  have hb3 : (applyBottomFall rnd (wallStep (moveBall s))).ball = resetBall rnd := by
    rw [applyBottomFall_of_fall_alive rnd _ hfall2 hl2]
  have hg3 : (applyBottomFall rnd (wallStep (moveBall s))).gameState = GameState.ready := by
    rw [applyBottomFall_of_fall_alive rnd _ hfall2 hl2]
  have hp3 : (applyBottomFall rnd (wallStep (moveBall s))).paddle = s.paddle := by simp
  have hk3 : (applyBottomFall rnd (wallStep (moveBall s))).bricks = s.bricks := by simp
  have hub : (movePaddle inp (applyBottomFall rnd (wallStep (moveBall s)))).ball =
      resetBall rnd := by
    simp [hb3]
  have hug : (movePaddle inp (applyBottomFall rnd (wallStep (moveBall s)))).gameState =
      GameState.ready := by
    simp [hg3]
  have huk : (movePaddle inp (applyBottomFall rnd (wallStep (moveBall s)))).bricks =
      s.bricks := by
    simp [hk3]
  have hupy : (movePaddle inp (applyBottomFall rnd (wallStep (moveBall s)))).paddle.y =
      s.paddle.y := by
    simp [movePaddle_paddle_y, hp3]
  have hA : paddleStep m (movePaddle inp (applyBottomFall rnd (wallStep (moveBall s)))) =
      movePaddle inp (applyBottomFall rnd (wallStep (moveBall s))) := by
    apply paddleStep_of_no_overlap
    intro hcon
    obtain ⟨hc1, hc2, hc3, hc4⟩ := hcon
    rw [hub, hupy] at hc3
    have hval : (resetBall rnd).y + (resetBall rnd).radius = 308 := by
      norm_num [resetBall, CANVAS_HEIGHT, BALL_RADIUS]
    rw [hval] at hc3
    exact absurd hc3 (not_lt.mpr hpy)
  have hB : brickStep (movePaddle inp (applyBottomFall rnd (wallStep (moveBall s)))) =
      movePaddle inp (applyBottomFall rnd (wallStep (moveBall s))) := by
    apply brickStep_of_no_hit
    intro br hbrm
    apply brickHit_eq_false_of_above
    rw [hub]
    have h292 := hbr br (by rwa [huk] at hbrm)
    have hyr : (resetBall rnd).y - (resetBall rnd).radius = 292 := by
      norm_num [resetBall, CANVAS_HEIGHT, BALL_RADIUS]
    rw [hyr]
    exact not_lt.mpr (by linarith)
  have hC : checkWin (movePaddle inp (applyBottomFall rnd (wallStep (moveBall s)))) =
      movePaddle inp (applyBottomFall rnd (wallStep (moveBall s))) := by
    apply checkWin_of_active
    rw [huk]
    exact hact
  rw [update_playing m inp rnd s hp, hA, hB, hC]
  refine ⟨hub, hug, rfl, rfl, ?_, rfl, by norm_num [resetBall]⟩
  cases rnd with
  | false => exact Or.inr (by norm_num [resetBall])
  | true => exact Or.inl (by norm_num [resetBall])

/-- Witness for the amended C3 at a concrete falling state. -/
theorem respawn_after_fall_with_lives_left_witness :
    (update mathsZero noInput true fallState).ball = resetBall true ∧
    (update mathsZero noInput true fallState).gameState = GameState.ready ∧
    (resetBall true).x = CANVAS_WIDTH / 2 ∧
    (resetBall true).y = CANVAS_HEIGHT / 2 ∧
    ((resetBall true).dx = 4 ∨ (resetBall true).dx = -4) ∧
    (resetBall true).dy = -4 ∧ (resetBall true).dy < 0 :=
  respawn_after_fall_with_lives_left mathsZero noInput true fallState
    (by decide) (by decide) (by decide) (by decide) (by decide) (by decide)

/-- C6: the brick scan deactivates exactly the first active overlapping
brick in row-major creation order, adds exactly that brick's points to
the score, leaves every other brick untouched and stops; when no active
brick overlaps, nothing changes.  (`brickHit` is the brick's `active`
flag conjoined with the AABB overlap test, and `List.findIdx?` picks the
first index satisfying it.) -/
theorem brick_scan_first_hit_spec (b : Ball) (bricks : List Brick) (score : ℤ) :
    (List.findIdx? (brickHit b) bricks = none →
      checkBallBrickCollision b bricks score = (b, bricks, score)) ∧
    (∀ (i : ℕ) (br : Brick), List.findIdx? (brickHit b) bricks = some i →
      bricks[i]? = some br →
      checkBallBrickCollision b bricks score =
        (brickBounce b br, bricks.set i { br with active := false }, score + br.points)) := by
  have hcons : ∀ (hd : Brick) (tl : List Brick),
      List.findIdx? (brickHit b) (hd :: tl) =
        if brickHit b hd then some 0 else (List.findIdx? (brickHit b) tl).map (· + 1) := by
    intro hd tl
    simp [List.findIdx?_cons]
  induction bricks with
  | nil =>
    refine ⟨fun _ => rfl, fun i br hfind _ => ?_⟩
    simp [List.findIdx?] at hfind
  | cons hd tl ih =>
    constructor
    · intro hnone
      rw [hcons] at hnone
      by_cases hhit : brickHit b hd
      · simp [hhit] at hnone
      · rw [if_neg hhit, Option.map_eq_none'] at hnone
        simp only [checkBallBrickCollision, hhit, Bool.false_eq_true, if_false,
          (ih.1 hnone)]
    · intro i br hfind hget
      rw [hcons] at hfind
      by_cases hhit : brickHit b hd
      · rw [if_pos hhit] at hfind
        obtain rfl : i = 0 := (Option.some.inj hfind).symm
        rw [List.getElem?_cons_zero] at hget
        obtain rfl : hd = br := Option.some.inj hget
        simp [checkBallBrickCollision, hhit]
      · rw [if_neg hhit] at hfind
        obtain ⟨j, hj, hji⟩ := Option.map_eq_some'.mp hfind
        subst hji
        have hget2 : tl[j]? = some br := by
          rw [List.getElem?_cons_succ] at hget
          exact hget
        have htail := ih.2 j br hj hget2
        simp only [checkBallBrickCollision, hhit, Bool.false_eq_true, if_false, htail,
          List.set_cons_succ]

/-- Witness for C6: a singleton brick list whose brick is hit. -/
theorem brick_scan_first_hit_spec_witness :
    checkBallBrickCollision probeBall [probeBrick] 0 =
      (brickBounce probeBall probeBrick,
       [probeBrick].set 0 { probeBrick with active := false },
       0 + probeBrick.points) :=
  (brick_scan_first_hit_spec probeBall [probeBrick] 0).2 0 probeBrick (by decide) (by decide)

/-- C7 (counterexample to the claim as stated): the paddle-collision
branch runs (the AABB overlap condition holds) while
`hitPosition = (ball.x - paddle.x) / paddle.width` is negative, because
the overlap test only forces the ball's center into the paddle interval
inflated by the ball radius. -/
theorem hit_position_below_zero :
    (grazePaddleBall.x + grazePaddleBall.radius > initPaddle.x ∧
     grazePaddleBall.x - grazePaddleBall.radius < initPaddle.x + initPaddle.width ∧
     grazePaddleBall.y + grazePaddleBall.radius > initPaddle.y ∧
     grazePaddleBall.y - grazePaddleBall.radius < initPaddle.y + initPaddle.height) ∧
    hitPosition grazePaddleBall initPaddle < 0 := by
  decide

/-- C7 (amended): whenever the paddle-collision branch runs, the
computed hit position lies in the open interval
`(-radius/width, 1 + radius/width)`; with the game's constants
(radius 8, width 120) that is `(-1/15, 16/15)`, not the closed `[0, 1]`
of the claim. -/
theorem hit_position_open_bounds (b : Ball) (p : Paddle)
    (hw : 0 < p.width)
    (h1 : b.x + b.radius > p.x)
    (h2 : b.x - b.radius < p.x + p.width) :
    -(b.radius / p.width) < hitPosition b p ∧
    hitPosition b p < 1 + b.radius / p.width := by
  unfold hitPosition
  constructor
  · rw [← neg_div]
    exact (div_lt_div_iff_of_pos_right hw).mpr (by linarith)
  · have hval : 1 + b.radius / p.width = (p.width + b.radius) / p.width := by
      field_simp
    rw [hval]
    exact (div_lt_div_iff_of_pos_right hw).mpr (by linarith)

/-- Witness for the amended C7 at the concrete overlapping pair. -/
theorem hit_position_open_bounds_witness :
    -(grazePaddleBall.radius / initPaddle.width) < hitPosition grazePaddleBall initPaddle ∧
    hitPosition grazePaddleBall initPaddle < 1 + grazePaddleBall.radius / initPaddle.width :=
  hit_position_open_bounds grazePaddleBall initPaddle (by decide) (by decide) (by decide)

/-- A finished game: phase `gameOver` with no lives left. -/
def overState : SimState := { initState with gameState := .gameOver, lives := 0 }

/-- C8: in the terminal phases `gameOver` and `win`, the space command
(start/pauseToggle) is ignored — the state is unchanged — while the
restart command runs `resetGame`: phase `ready`, score 0, lives 3, the
full brick grid rebuilt all active, the ball recentered at its initial
position, and the paddle back at its initial `x` (its other fields are
untouched by the code). -/
theorem terminal_commands_spec (rnd : Bool) (s : SimState)
    (h : s.gameState = GameState.gameOver ∨ s.gameState = GameState.win) :
    handleCommand rnd Command.space s = s ∧
    handleCommand rnd Command.restart s = resetGame rnd s ∧
    (resetGame rnd s).gameState = GameState.ready ∧
    (resetGame rnd s).score = 0 ∧
    (resetGame rnd s).lives = 3 ∧
    (resetGame rnd s).bricks = initBricks ∧
    initBricks.all (fun br => br.active) = true ∧
    (resetGame rnd s).ball.x = initBall.x ∧
    (resetGame rnd s).ball.y = initBall.y ∧
    (resetGame rnd s).paddle = { s.paddle with x := initPaddle.x } := by
  refine ⟨?_, ?_, rfl, rfl, rfl, rfl, by decide, rfl, rfl, rfl⟩
  · rcases h with h | h <;> simp [handleCommand, h]
  · rcases h with h | h <;> simp [handleCommand, h]

/-- Witness for C8 at a concrete `gameOver` state. -/
theorem terminal_commands_spec_witness :
    handleCommand true Command.space overState = overState ∧
    handleCommand true Command.restart overState = resetGame true overState ∧
    (resetGame true overState).gameState = GameState.ready ∧
    (resetGame true overState).score = 0 ∧
    (resetGame true overState).lives = 3 ∧
    (resetGame true overState).bricks = initBricks ∧
    initBricks.all (fun br => br.active) = true ∧
    (resetGame true overState).ball.x = initBall.x ∧
    (resetGame true overState).ball.y = initBall.y ∧
    (resetGame true overState).paddle = { overState.paddle with x := initPaddle.x } :=
  terminal_commands_spec true overState (Or.inl rfl)

/-- A playing state on its last life whose ball falls below the field on
this tick. -/
def lastLifeState : SimState :=
  { gameState := .playing
    score := 0
    lives := 1
    ball := { x := 400, y := 610, dx := 0, dy := 4, radius := 8 }
    paddle := initPaddle
    bricks := initBricks }

/-- An arbitrary `gameOver` state used to exercise absorption. -/
def doneState : SimState :=
  { gameState := .gameOver
    score := 120
    lives := 0
    ball := initBall
    paddle := initPaddle
    bricks := [] }

/-- C9: with one life left, the tick on which the ball falls below the
field sets lives to 0 and the phase to `gameOver`; and `gameOver` is
absorbing for everything but restart — a tick is the identity there, and
the space command is the identity there — so the ball and paddle are
never mutated again until a restart.  The geometric hypotheses (paddle
and bricks contained in the field) hold for every real layout and rule
out a same-tick paddle or brick interaction of the fallen ball. -/
theorem game_over_on_last_life_and_absorbing (m m2 : MathOps) (inp inp2 : Inputs)
    (rnd rnd2 : Bool) (s t : SimState)
    (hp : s.gameState = GameState.playing)
    (hl : s.lives = 1)
    (hf : s.ball.y + s.ball.dy - s.ball.radius > CANVAS_HEIGHT)
    (hpad : s.paddle.y + s.paddle.height ≤ CANVAS_HEIGHT)
    (hbr : ∀ br ∈ s.bricks, br.y + br.height ≤ CANVAS_HEIGHT)
    (hact : ∃ br ∈ s.bricks, br.active = true)
    (ht : t.gameState = GameState.gameOver) :
    (update m inp rnd s).lives = 0 ∧
    (update m inp rnd s).gameState = GameState.gameOver ∧
    update m2 inp2 rnd2 t = t ∧
    handleCommand rnd2 Command.space t = t := by
  have hfall2 : (wallStep (moveBall s)).ball.y - (wallStep (moveBall s)).ball.radius >
      CANVAS_HEIGHT := by
    simpa using hf
  have hl2 : (wallStep (moveBall s)).lives - 1 ≤ 0 := by
    simp only [wallStep_lives, moveBall_lives, hl]
    norm_num
  have hg3 : (applyBottomFall rnd (wallStep (moveBall s))).gameState =
      GameState.gameOver := by
    rw [applyBottomFall_of_fall_dead rnd _ hfall2 hl2]
  have hl3 : (applyBottomFall rnd (wallStep (moveBall s))).lives = 0 := by
    rw [applyBottomFall_of_fall_dead rnd _ hfall2 hl2]
    simp [hl]
  have hb3 : (applyBottomFall rnd (wallStep (moveBall s))).ball =
      (wallStep (moveBall s)).ball := by
    rw [applyBottomFall_of_fall_dead rnd _ hfall2 hl2]
  have hp3 : (applyBottomFall rnd (wallStep (moveBall s))).paddle = s.paddle := by simp
  have hk3 : (applyBottomFall rnd (wallStep (moveBall s))).bricks = s.bricks := by simp
  have hub : (movePaddle inp (applyBottomFall rnd (wallStep (moveBall s)))).ball =
      (wallStep (moveBall s)).ball := by
    simp [hb3]
  have huk : (movePaddle inp (applyBottomFall rnd (wallStep (moveBall s)))).bricks =
      s.bricks := by
    simp [hk3]
  have hupy : (movePaddle inp (applyBottomFall rnd (wallStep (moveBall s)))).paddle.y =
      s.paddle.y := by
    simp [movePaddle_paddle_y, hp3]
  have huph : (movePaddle inp (applyBottomFall rnd (wallStep (moveBall s)))).paddle.height =
      s.paddle.height := by
    simp [movePaddle_paddle_height, hp3]
  have hyr : (wallStep (moveBall s)).ball.y - (wallStep (moveBall s)).ball.radius =
      s.ball.y + s.ball.dy - s.ball.radius := by
    simp
  have hA : paddleStep m (movePaddle inp (applyBottomFall rnd (wallStep (moveBall s)))) =
      movePaddle inp (applyBottomFall rnd (wallStep (moveBall s))) := by
    apply paddleStep_of_no_overlap
    intro hcon
    obtain ⟨hc1, hc2, hc3, hc4⟩ := hcon
    rw [hub, hupy, huph, hyr] at hc4
    linarith
  have hB : brickStep (movePaddle inp (applyBottomFall rnd (wallStep (moveBall s)))) =
      movePaddle inp (applyBottomFall rnd (wallStep (moveBall s))) := by
    apply brickStep_of_no_hit
    intro br hbrm
    apply brickHit_eq_false_of_above
    rw [hub, hyr]
    have hb := hbr br (by rwa [huk] at hbrm)
    exact not_lt.mpr (by linarith)
  have hC : checkWin (movePaddle inp (applyBottomFall rnd (wallStep (moveBall s)))) =
      movePaddle inp (applyBottomFall rnd (wallStep (moveBall s))) := by
    apply checkWin_of_active
    rw [huk]
    exact hact
  rw [update_playing m inp rnd s hp, hA, hB, hC]
  refine ⟨by simp [hl3], by simp [hg3], ?_, ?_⟩
  · exact update_frozen m2 inp2 rnd2 t (by simp [ht])
  · simp [handleCommand, ht]

/-- Witness for C9 at concrete last-life and `gameOver` states. -/
theorem game_over_on_last_life_and_absorbing_witness :
    (update mathsZero noInput true lastLifeState).lives = 0 ∧
    (update mathsZero noInput true lastLifeState).gameState = GameState.gameOver ∧
    update mathsZero noInput true doneState = doneState ∧
    handleCommand true Command.space doneState = doneState :=
  game_over_on_last_life_and_absorbing mathsZero mathsZero noInput noInput true true
    lastLifeState doneState (by decide) (by decide) (by decide) (by decide) (by decide)
    (by decide) (by decide)

/-! ## Reachability invariants -/

/-- Lives bookkeeping invariant: lives stays in `[0, 3]` and is positive
in every non-terminal phase. -/
def LivesInv (s : SimState) : Prop :=
  0 ≤ s.lives ∧ s.lives ≤ 3 ∧
    ((s.gameState = GameState.ready ∨ s.gameState = GameState.playing ∨
      s.gameState = GameState.paused) → 1 ≤ s.lives)

/-- Paddle invariant: constant width and clamped position. -/
def PaddleInv (s : SimState) : Prop :=
  s.paddle.width = PADDLE_WIDTH ∧ 0 ≤ s.paddle.x ∧
    s.paddle.x + s.paddle.width ≤ CANVAS_WIDTH

/-- The combined reachability invariant. -/
def Inv (s : SimState) : Prop :=
  LivesInv s ∧ PaddleInv s

lemma inv_init : Inv initState := by
  unfold Inv LivesInv PaddleInv
  decide

lemma movePaddle_x_bounds (inp : Inputs) (s : SimState)
    (h1 : s.paddle.width ≤ CANVAS_WIDTH) :
    0 ≤ (movePaddle inp s).paddle.x ∧
    (movePaddle inp s).paddle.x + s.paddle.width ≤ CANVAS_WIDTH := by
  simp only [movePaddle]
  split_ifs <;> exact ⟨by linarith, by linarith⟩

lemma applyBottomFall_lives_phase (rnd : Bool) (u : SimState)
    (h1 : 1 ≤ u.lives) (h3 : u.lives ≤ 3) :
    (0 ≤ (applyBottomFall rnd u).lives ∧ (applyBottomFall rnd u).lives ≤ 3) ∧
    (((applyBottomFall rnd u).gameState = GameState.ready ∨
      (applyBottomFall rnd u).gameState = GameState.playing ∨
      (applyBottomFall rnd u).gameState = GameState.paused) →
      1 ≤ (applyBottomFall rnd u).lives) := by
  simp only [applyBottomFall]
  split
  · split
    · dsimp only
      refine ⟨⟨by omega, by omega⟩, ?_⟩
      rintro (h | h | h) <;> exact absurd h (by decide)
    · dsimp only
      rename_i hfall halive
      exact ⟨⟨by omega, by omega⟩, fun _ => by omega⟩
  · exact ⟨⟨by omega, h3⟩, fun _ => h1⟩

lemma checkWin_gameState_cases (u : SimState) :
    (checkWin u).gameState = GameState.win ∨ (checkWin u).gameState = u.gameState := by
  simp only [checkWin]
  split
  · exact Or.inl rfl
  · exact Or.inr rfl

lemma inv_update (m : MathOps) (inp : Inputs) (rnd : Bool) (s : SimState)
    (h : Inv s) : Inv (update m inp rnd s) := by
  by_cases hp : s.gameState = GameState.playing
  · obtain ⟨⟨hl0, hl3, hlrpp⟩, hpw, hpx0, hpxw⟩ := h
    have hlives1 : 1 ≤ s.lives := hlrpp (Or.inr (Or.inl hp))
    rw [update_playing m inp rnd s hp]
    have hkey := applyBottomFall_lives_phase rnd (wallStep (moveBall s))
      (by simpa using hlives1) (by simpa using hl3)
    constructor
    · refine ⟨by simpa using hkey.1.1, by simpa using hkey.1.2, ?_⟩
      intro hrpp
      have hlf : (checkWin (brickStep (paddleStep m (movePaddle inp
          (applyBottomFall rnd (wallStep (moveBall s))))))).lives =
          (applyBottomFall rnd (wallStep (moveBall s))).lives := by
        simp
      rw [hlf]
      apply hkey.2
      rcases checkWin_gameState_cases (brickStep (paddleStep m (movePaddle inp
          (applyBottomFall rnd (wallStep (moveBall s)))))) with hg | hg
      · rw [hg] at hrpp
        rcases hrpp with hx | hx | hx <;> exact absurd hx (by decide)
      · rw [hg] at hrpp
        simpa using hrpp
    · have hb := movePaddle_x_bounds inp (applyBottomFall rnd (wallStep (moveBall s)))
        (by simp [hpw]; norm_num [PADDLE_WIDTH, CANVAS_WIDTH])
      refine ⟨by simpa using hpw, by simpa using hb.1, ?_⟩
      have hw2 : (applyBottomFall rnd (wallStep (moveBall s))).paddle.width =
          s.paddle.width := by
        simp
      have := hb.2
      rw [hw2] at this
      simpa using this
  · rw [update_frozen m inp rnd s hp]
    exact h

lemma inv_cmd (c : Command) (rnd : Bool) (s : SimState) (h : Inv s) :
    Inv (handleCommand rnd c s) := by
  obtain ⟨⟨hl0, hl3, hlrpp⟩, hpw, hpx0, hpxw⟩ := h
  cases c
  case space =>
    cases hgs : s.gameState
    all_goals simp only [handleCommand, hgs]
    case ready => exact ⟨⟨hl0, hl3, fun _ => hlrpp (Or.inl hgs)⟩, hpw, hpx0, hpxw⟩
    case playing => exact ⟨⟨hl0, hl3, fun _ => hlrpp (Or.inr (Or.inl hgs))⟩, hpw, hpx0, hpxw⟩
    case paused => exact ⟨⟨hl0, hl3, fun _ => hlrpp (Or.inr (Or.inr hgs))⟩, hpw, hpx0, hpxw⟩
    case gameOver => exact ⟨⟨hl0, hl3, hlrpp⟩, hpw, hpx0, hpxw⟩
    case win => exact ⟨⟨hl0, hl3, hlrpp⟩, hpw, hpx0, hpxw⟩
  case restart =>
    simp only [handleCommand]
    split
    · refine ⟨⟨by norm_num [resetGame], by norm_num [resetGame],
        fun _ => by norm_num [resetGame]⟩, ?_, ?_, ?_⟩
      · simpa [resetGame] using hpw
      · show (0:ℚ) ≤ CANVAS_WIDTH / 2 - PADDLE_WIDTH / 2
        norm_num [CANVAS_WIDTH, PADDLE_WIDTH]
      · show CANVAS_WIDTH / 2 - PADDLE_WIDTH / 2 + s.paddle.width ≤ CANVAS_WIDTH
        rw [hpw]
        norm_num [CANVAS_WIDTH, PADDLE_WIDTH]
    · exact ⟨⟨hl0, hl3, hlrpp⟩, hpw, hpx0, hpxw⟩

lemma reachable_inv (s : SimState) (h : Reachable s) : Inv s := by
  induction h with
  | init => exact inv_init
  | tick m inp rnd u hu ih => exact inv_update m inp rnd u ih
  | cmd c rnd u hu ih => exact inv_cmd c rnd u ih

/-- C4: in every state reachable by any interleaving of ticks (with any
held-input combinations) and commands, the paddle position lies in
`[0, CANVAS_WIDTH - PADDLE_WIDTH]`. -/
theorem paddle_x_in_bounds_of_reachable (s : SimState) (h : Reachable s) :
    0 ≤ s.paddle.x ∧ s.paddle.x ≤ CANVAS_WIDTH - PADDLE_WIDTH := by
  obtain ⟨-, hpw, hpx0, hpxw⟩ := reachable_inv s h
  refine ⟨hpx0, ?_⟩
  rw [← hpw]
  linarith

/-- Witness for C4 at the initial state. -/
theorem paddle_x_in_bounds_of_reachable_witness :
    0 ≤ initState.paddle.x ∧ initState.paddle.x ≤ CANVAS_WIDTH - PADDLE_WIDTH :=
  paddle_x_in_bounds_of_reachable initState Reachable.init

/-- C10: in every state reachable from the initial state by any sequence
of ticks and commands, lives lies in `[0, 3]`. -/
theorem lives_in_range_of_reachable (s : SimState) (h : Reachable s) :
    0 ≤ s.lives ∧ s.lives ≤ 3 := by
  obtain ⟨⟨h0, h3, -⟩, -⟩ := reachable_inv s h
  exact ⟨h0, h3⟩

/-- Witness for C10 at the initial state. -/
theorem lives_in_range_of_reachable_witness :
    0 ≤ initState.lives ∧ initState.lives ≤ 3 :=
  lives_in_range_of_reachable initState Reachable.init

end Arkanoid
